import Mathlib

/-!
Verification of the Memory Leak Detector orchestration logic
(`valgrindGUI_windows.py`).

The Python program is a tkinter front-end around gcc and valgrind.  Its
verifiable core is pure string processing (verdict detection, regex-style
field extraction, Windows→WSL path translation) together with the
branching logic of the probe / compile / analyze orchestrators.  We embed
that core shallowly: every external subprocess call becomes an explicit
outcome parameter (completed with an exit code and captured streams,
timed out, executable not found, or some other exception), and each
Python method becomes a pure Lean function from its inputs and those
outcomes to a record of its observable effects (dialogs shown, log lines
appended, invocations issued, status-bar updates, entry-field updates).
-/

namespace MemLeak

/-! ## Python string primitives -/

/-- Python substring containment (`pat in s`), over character lists:
true iff `pat` occurs contiguously somewhere in `s`. -/
def pyContains (pat : List Char) : List Char → Bool
  | [] => List.isPrefixOf pat []
  | c :: t => List.isPrefixOf pat (c :: t) || pyContains pat t

/-- Matcher for the regex fragment `.*suf` anchored at the start of the
input: true iff `suf` occurs after a (possibly empty) run of
non-newline characters, exactly as Python's `.` (no DOTALL) behaves. -/
def dotStar (suf : List Char) : List Char → Bool
  | [] => List.isPrefixOf suf []
  | c :: t => List.isPrefixOf suf (c :: t) || ((c != '\n') && dotStar suf t)

/-- Matcher modelling `re.search(pre + ".*" + suf, s) is not None` for
literal fragments `pre` and `suf`: true iff at some position `s`
carries `pre`, then any non-newline run, then `suf`. -/
def searchPS (pre suf : List Char) : List Char → Bool
  | [] => List.isPrefixOf pre [] && dotStar suf []
  | c :: t =>
    (List.isPrefixOf pre (c :: t) && dotStar suf (List.drop pre.length (c :: t)))
      || searchPS pre suf t

/-- Python default `str.strip` whitespace characters (ASCII). -/
def isPySpace (c : Char) : Bool :=
  c = ' ' || c = '\t' || c = '\n' || c = '\r' || c = '\x0b' || c = '\x0c'

/-- Python `s.strip()`. -/
def pyStrip (s : String) : String :=
  ⟨((s.toList.dropWhile isPySpace).reverse.dropWhile isPySpace).reverse⟩

/-- Python `s.endswith(suffix)`. -/
def pyEndsWith (s suffix : String) : Bool :=
  List.isSuffixOf suffix.toList s.toList

/-- Python `s[:-2]` (drop the last two characters; empty when shorter). -/
def pyDropLast2 (s : String) : String :=
  ⟨s.toList.dropLast.dropLast⟩

/-! ## Diagnostic-stream parser (`parse_valgrind_output`) -/

/-- The literal phrase whose presence means the no-leak verdict. -/
def noLeakPhrase : String := "All heap blocks were freed -- no leaks are possible"

/-- Verdict line inserted when the no-leak phrase is present. -/
def noLeakVerdictMsg : String := "✓ RESULT: No memory leaks detected!"

/-- Verdict line inserted when the no-leak phrase is absent. -/
def leakVerdictMsg : String := "⚠ RESULT: Memory leaks detected!"

/-- Which of the five leak-category lines matched (each category line is
emitted only when its own regex matched the raw text). -/
structure LeakSummary where
  definitelyLost : Bool
  indirectlyLost : Bool
  possiblyLost : Bool
  stillReachable : Bool
  suppressed : Bool
deriving Repr, DecidableEq

/-- The fields `parse_valgrind_output` extracts from the raw stderr text:
the verdict line, whether the total-heap-usage summary matched, and the
leak-summary table (present iff the text contains "LEAK SUMMARY"). -/
structure CheckerReport where
  verdict : String
  memUsage : Bool
  leakSummary : Option LeakSummary
deriving Repr, DecidableEq

/-- Shallow embedding of `parse_valgrind_output`: the verdict is decided
by a substring test for the no-leak phrase; the memory-usage line by
`re.search("total heap usage: .* bytes allocated")`; the five
leak-category fields are matched independently, but only when the
literal header "LEAK SUMMARY" occurs in the text. -/
def parse_valgrind_output (stderr : String) : CheckerReport :=
  let s := stderr.toList
  { verdict :=
      if pyContains noLeakPhrase.toList s then noLeakVerdictMsg else leakVerdictMsg
    memUsage := searchPS "total heap usage: ".toList " bytes allocated".toList s
    leakSummary :=
      if pyContains "LEAK SUMMARY".toList s then
        some { definitelyLost := searchPS "definitely lost: ".toList " blocks".toList s
               indirectlyLost := searchPS "indirectly lost: ".toList " blocks".toList s
               possiblyLost := searchPS "possibly lost: ".toList " blocks".toList s
               stillReachable := searchPS "still reachable: ".toList " blocks".toList s
               suppressed := searchPS "suppressed: ".toList " blocks".toList s }
      else none }

/-- Declarative meaning of one leak-category regex `pre.*suf`:
the text splits as `l ++ pre ++ m ++ suf ++ r` with `m` newline-free. -/
def MatchesPS (pre suf : String) (s : String) : Prop :=
  ∃ l m r, s.toList = l ++ pre.toList ++ m ++ suf.toList ++ r ∧ ∀ c ∈ m, c ≠ '\n'

/-! ## Path translation (`_windows_path_to_wsl`) -/

/-- Shallow embedding of `_windows_path_to_wsl`: replace every backslash
with a forward slash, then, when the text contains a colon anywhere,
rewrite to "/mnt/" followed by the lowercased first character and the
text from index 2 on. -/
def windows_path_to_wsl (windows_path : String) : String :=
  let w := windows_path.toList.map fun c => if c = '\\' then '/' else c
  if ':' ∈ w then
    match w with
    | [] => ⟨w⟩
    | c :: _ => ⟨"/mnt/".toList ++ c.toLower :: w.drop 2⟩
  else ⟨w⟩

/-! ## External invocations and subprocess outcomes -/

/-- An external command together with the timeout passed to
`subprocess.run` (in seconds). -/
structure Invocation where
  cmd : List String
  timeoutSecs : Nat
deriving Repr, DecidableEq

/-- Outcome of a version-query probe: the process completed with an exit
code, or `subprocess.run` raised FileNotFoundError, or it raised
TimeoutExpired. -/
inductive ProbeOutcome
  | completed (returncode : Int)
  | fileNotFound
  | timedOut
deriving Repr, DecidableEq

/-! ## Environment prober (`check_tools` helpers) -/

/-- The probe invocations issued by `check_tools`, each with the 5-second
timeout used in the source. -/
def gccVersionProbe : Invocation := ⟨["gcc", "--version"], 5⟩

/-- Native valgrind version probe. -/
def valgrindVersionProbe : Invocation := ⟨["valgrind", "--version"], 5⟩

/-- WSL status probe. -/
def wslStatusProbe : Invocation := ⟨["wsl", "--status"], 5⟩

/-- WSL gcc version probe. -/
def wslGccVersionProbe : Invocation := ⟨["wsl", "gcc", "--version"], 5⟩

/-- WSL valgrind version probe. -/
def wslValgrindVersionProbe : Invocation := ⟨["wsl", "valgrind", "--version"], 5⟩

/-- Embedding of `_check_windows_gcc`: the produced status line and the
availability it denotes (✓ exactly when the probe completed with exit
code 0).  FileNotFoundError and TimeoutExpired are both caught and give
the not-found line. -/
def check_windows_gcc : ProbeOutcome → String × Bool
  | .completed rc =>
    if rc = 0 then ("✓ GCC compiler available (Windows)", true)
    else ("✗ GCC compiler not found (Windows)", false)
  | .fileNotFound => ("✗ GCC compiler not found (Windows)", false)
  | .timedOut => ("✗ GCC compiler not found (Windows)", false)

/-- Embedding of `_check_windows_valgrind`. -/
def check_windows_valgrind : ProbeOutcome → String × Bool
  | .completed rc =>
    if rc = 0 then ("✓ Valgrind available (Windows)", true)
    else ("✗ Valgrind not available (Windows)", false)
  | .fileNotFound => ("✗ Valgrind not available (Windows)", false)
  | .timedOut => ("✗ Valgrind not available (Windows)", false)

/-- Embedding of the `wsl --status` probe in `_check_wsl_tools`: status
line and the resulting `wsl_available` flag. -/
def check_wsl_tools : ProbeOutcome → String × Bool
  | .completed rc =>
    if rc = 0 then ("✓ WSL available", true) else ("✗ WSL not available", false)
  | .fileNotFound => ("✗ WSL not available", false)
  | .timedOut => ("✗ WSL not available", false)

/-- Embedding of `_check_wsl_gcc`: status line and the resulting
`wsl_gcc_available` flag. -/
def check_wsl_gcc : ProbeOutcome → String × Bool
  | .completed rc =>
    if rc = 0 then ("✓ GCC available in WSL", true)
    else ("✗ GCC not installed in WSL", false)
  | .fileNotFound => ("✗ GCC not installed in WSL", false)
  | .timedOut => ("✗ GCC not installed in WSL", false)

/-- Embedding of `_check_wsl_valgrind`: status line and the resulting
`wsl_valgrind_available` flag. -/
def check_wsl_valgrind : ProbeOutcome → String × Bool
  | .completed rc =>
    if rc = 0 then ("✓ Valgrind available in WSL", true)
    else ("✗ Valgrind not installed in WSL", false)
  | .fileNotFound => ("✗ Valgrind not installed in WSL", false)
  | .timedOut => ("✗ Valgrind not installed in WSL", false)

/-! ## Build orchestrator (`compile_c_file` and helpers) -/

/-- Outcome of a compiler subprocess call. -/
inductive RunResult
  | completed (returncode : Int) (stdout stderr : String)
  | timedOut
  | fileNotFound
deriving Repr, DecidableEq

/-- An exception escaping a compiler helper into `compile_c_file`'s
try/except: FileNotFoundError or TimeoutExpired (the latter lands in
the generic `except Exception` handler). -/
inductive SubprocExc
  | fileNotFound
  | timedOut
deriving Repr, DecidableEq

/-- Observable result of one compiler helper run: log lines emitted after
the subprocess returned, the entry-field update (the produced
executable's path on success), and the status-bar text set. -/
structure CompileStep where
  log : List String
  entryUpdate : Option String
  status : String
deriving Repr, DecidableEq

/-- Embedding of `_compile_with_wsl_gcc`.  Components: the log emitted
before the subprocess call, the invocation issued (30-second timeout),
and either the propagated exception or the step outcome together with
the Python return value (True on exit code 0, False otherwise).  On
success the entry field receives `file_path[:-2]` in the Windows
convention, not the translated WSL path. -/
def compile_with_wsl_gcc (file_path : String) (r : RunResult) :
    List String × Invocation × Except SubprocExc (CompileStep × Bool) :=
  let wsl_path := windows_path_to_wsl file_path
  let exe_name := pyDropLast2 file_path
  let wsl_exe := pyDropLast2 wsl_path
  let inv : Invocation := ⟨["wsl", "gcc", "-g", "-o", wsl_exe, wsl_path], 30⟩
  (["Using WSL GCC compiler..."], inv,
    match r with
    | .fileNotFound => .error .fileNotFound
    | .timedOut => .error .timedOut
    | .completed rc _ stderr =>
      if rc = 0 then
        .ok ({ log := ["✓ Compilation successful!", "  Executable: " ++ exe_name]
               entryUpdate := some exe_name
               status := "Compilation successful (WSL)" }, true)
      else
        .ok ({ log := ["✗ Compilation failed:\n" ++ stderr]
               entryUpdate := none
               status := "Compilation failed" }, false))

/-- Embedding of `_compile_with_windows_gcc`: the output name gets the
".exe" suffix exactly when `platform.system() == "Windows"`.  The
Python function returns None, so no return value is recorded. -/
def compile_with_windows_gcc (file_path : String) (isWindows : Bool)
    (r : RunResult) :
    List String × Invocation × Except SubprocExc CompileStep :=
  let exe_name :=
    if isWindows then pyDropLast2 file_path ++ ".exe" else pyDropLast2 file_path
  let inv : Invocation := ⟨["gcc", "-g", "-o", exe_name, file_path], 30⟩
  (["Using Windows GCC compiler..."], inv,
    match r with
    | .fileNotFound => .error .fileNotFound
    | .timedOut => .error .timedOut
    | .completed rc _ stderr =>
      if rc = 0 then
        .ok { log := ["✓ Compilation successful!", "  Executable: " ++ exe_name]
              entryUpdate := some exe_name
              status := "Compilation successful" }
      else
        .ok { log := ["✗ Compilation failed:\n" ++ stderr]
              entryUpdate := none
              status := "Compilation failed" })

/-- Observable effects of one `compile_c_file` action: the error and info
dialogs shown, the compiler invocations attempted, the entry-field
update, the final status-bar text (`none` = left unchanged), and the
appended log lines. -/
structure CompileEffects where
  errorDialog : Option String
  infoDialog : Option String
  invocations : List Invocation
  entryUpdate : Option String
  status : Option String
  log : List String
deriving Repr, DecidableEq

/-- Dialog text of the FileNotFoundError handler in `compile_c_file`. -/
def gccNotFoundDialog : String :=
  "GCC compiler not found!\nPlease install GCC in WSL or MinGW on Windows."

/-- Embedding of `compile_c_file`.  The entry text is stripped; an empty
path, a path not ending in ".c", or a missing file is rejected by a
guard clause before any invocation and before the status bar is
touched.  Otherwise WSL gcc is preferred when both WSL flags hold; a
failed (nonzero exit) WSL compile falls through to Windows gcc; a
FileNotFoundError sets the "GCC not found" status and any other
exception (TimeoutExpired included) the "Compilation error" status. -/
def compile_c_file (entry : String) (fileExists : String → Bool)
    (wsl_available wsl_gcc_available : Bool) (wslRun winRun : RunResult)
    (isWindows : Bool) : CompileEffects :=
  let file_path := pyStrip entry
  if file_path = "" then
    ⟨some "Please select a C source file!", none, [], none, none, []⟩
  else if pyEndsWith file_path ".c" = false then
    ⟨none, some "Selected file is not a C source file (.c)", [], none, none, []⟩
  else if fileExists file_path = false then
    ⟨some ("File not found: " ++ file_path), none, [], none, none, []⟩
  else
    if wsl_available && wsl_gcc_available then
      let a := compile_with_wsl_gcc file_path wslRun
      match a.2.2 with
      | .ok (s, true) =>
        ⟨none, none, [a.2.1], s.entryUpdate, some s.status, a.1 ++ s.log⟩
      | .ok (s, false) =>
        let b := compile_with_windows_gcc file_path isWindows winRun
        match b.2.2 with
        | .ok s2 =>
          ⟨none, none, [a.2.1, b.2.1], s2.entryUpdate, some s2.status,
            a.1 ++ s.log ++ b.1 ++ s2.log⟩
        | .error .fileNotFound =>
          ⟨some gccNotFoundDialog, none, [a.2.1, b.2.1], none,
            some "GCC not found", a.1 ++ s.log ++ b.1 ++ ["✗ " ++ gccNotFoundDialog]⟩
        | .error .timedOut =>
          ⟨some "Compilation error", none, [a.2.1, b.2.1], none,
            some "Compilation error", a.1 ++ s.log ++ b.1 ++ ["✗ Unexpected error"]⟩
      | .error .fileNotFound =>
        ⟨some gccNotFoundDialog, none, [a.2.1], none, some "GCC not found",
          a.1 ++ ["✗ " ++ gccNotFoundDialog]⟩
      | .error .timedOut =>
        ⟨some "Compilation error", none, [a.2.1], none, some "Compilation error",
          a.1 ++ ["✗ Unexpected error"]⟩
    else
      let b := compile_with_windows_gcc file_path isWindows winRun
      match b.2.2 with
      | .ok s2 =>
        ⟨none, none, [b.2.1], s2.entryUpdate, some s2.status, b.1 ++ s2.log⟩
      | .error .fileNotFound =>
        ⟨some gccNotFoundDialog, none, [b.2.1], none, some "GCC not found",
          b.1 ++ ["✗ " ++ gccNotFoundDialog]⟩
      | .error .timedOut =>
        ⟨some "Compilation error", none, [b.2.1], none, some "Compilation error",
          b.1 ++ ["✗ Unexpected error"]⟩

/-! ## Analysis orchestrator (`analyze_memory` and helpers) -/

/-- Outcome of a valgrind subprocess call: completed (with exit code and
captured streams), TimeoutExpired, FileNotFoundError, or some other
exception carrying its message. -/
inductive ValgrindRun
  | completed (returncode : Int) (stdout stderr : String)
  | timedOut
  | fileNotFound
  | raised (msg : String)
deriving Repr, DecidableEq

/-- Observable effects of one valgrind helper: the invocation issued, the
log lines emitted, the parsed report (when the run completed), the
status-bar update, and the Python return value. -/
structure ValgrindAttempt where
  invocation : Invocation
  log : List String
  report : Option CheckerReport
  status : Option String
  returned : Bool
deriving Repr, DecidableEq

/-- Embedding of `_run_wsl_valgrind`: on any completed run (the exit code
is never inspected) the stderr stream is parsed and True is returned;
TimeoutExpired and every other exception return False.  A WSL
FileNotFoundError lands in the generic `except Exception` handler. -/
def run_wsl_valgrind (executable_path : String) (r : ValgrindRun) :
    ValgrindAttempt :=
  let wsl_path := windows_path_to_wsl executable_path
  let inv : Invocation :=
    ⟨["wsl", "valgrind", "--leak-check=full", "--track-origins=yes",
      "--show-leak-kinds=all", wsl_path], 30⟩
  match r with
  | .completed _ _ stderr =>
    { invocation := inv
      log := ["Running Valgrind memory check (WSL)..."]
      report := some (parse_valgrind_output stderr)
      status := some "Valgrind analysis complete (WSL)"
      returned := true }
  | .timedOut =>
    { invocation := inv
      log := ["Running Valgrind memory check (WSL)...",
              "⚠ Valgrind execution timed out (30 seconds)",
              "The program may be hanging or taking too long."]
      report := none, status := none, returned := false }
  | .fileNotFound =>
    { invocation := inv
      log := ["Running Valgrind memory check (WSL)...",
              "✗ WSL Valgrind error: FileNotFoundError"]
      report := none, status := none, returned := false }
  | .raised msg =>
    { invocation := inv
      log := ["Running Valgrind memory check (WSL)...",
              "✗ WSL Valgrind error: " ++ msg]
      report := none, status := none, returned := false }

/-- Embedding of `_run_native_valgrind` (no path translation, no
"--show-leak-kinds=all" flag). -/
def run_native_valgrind (executable_path : String) (r : ValgrindRun) :
    ValgrindAttempt :=
  let inv : Invocation :=
    ⟨["valgrind", "--leak-check=full", "--track-origins=yes",
      executable_path], 30⟩
  match r with
  | .completed _ _ stderr =>
    { invocation := inv
      log := ["Trying native Valgrind..."]
      report := some (parse_valgrind_output stderr)
      status := some "Valgrind analysis complete"
      returned := true }
  | .fileNotFound =>
    { invocation := inv
      log := ["Trying native Valgrind...", "⚠ Valgrind not available.",
              "Install Valgrind in WSL for memory leak detection.",
              "Falling back to basic analysis..."]
      report := none, status := none, returned := false }
  | .timedOut =>
    { invocation := inv
      log := ["Trying native Valgrind...", "⚠ Valgrind execution timed out"]
      report := none, status := none, returned := false }
  | .raised _ =>
    { invocation := inv
      log := ["Trying native Valgrind..."]
      report := none, status := none, returned := false }

/-- Embedding of `try_valgrind`: when both WSL flags hold the WSL helper
is called and its result returned directly (the native helper is then
never reached); otherwise the native helper is called.  The Bool
records which branch ran (true = WSL). -/
def try_valgrind (wsl_available wsl_valgrind_available : Bool)
    (executable_path : String) (wslRun nativeRun : ValgrindRun) :
    ValgrindAttempt × Bool :=
  if wsl_available && wsl_valgrind_available then
    (run_wsl_valgrind executable_path wslRun, true)
  else
    (run_native_valgrind executable_path nativeRun, false)

/-- Outcome of the plain execution in `basic_analysis`. -/
inductive BasicRun
  | completed (returncode : Int) (stdout stderr : String)
  | timedOut
  | raised (msg : String)
deriving Repr, DecidableEq

/-- Observable effects of `basic_analysis`: the single direct invocation
of the target, the log lines, and the final status-bar text. -/
structure BasicRunEffect where
  invocation : Invocation
  log : List String
  status : String
deriving Repr, DecidableEq

/-- The reminder appended by `basic_analysis` that no leak detection
occurred. -/
def basicNote : List String :=
  ["⚠ NOTE: Memory leak detection requires Valgrind!",
   "Install WSL and Valgrind for full memory analysis."]

/-- Embedding of `basic_analysis`: run the target directly with a
10-second timeout; report exit code (with Success/Error tag), stdout
and stderr (each only when non-empty), and the no-leak-detection
reminder.  TimeoutExpired and any other exception are terminal:
reported with their own status text, never retried. -/
def basic_analysis (executable_path : String) (r : BasicRun) :
    BasicRunEffect :=
  let inv : Invocation := ⟨[executable_path], 10⟩
  let header := ["Running basic execution (no memory leak detection)..."]
  match r with
  | .completed rc out err =>
    { invocation := inv
      log := header
        ++ ["Exit code: " ++ toString rc ++
            (if rc = 0 then " (Success)" else " (Error)")]
        ++ (if out = "" then [] else ["Program output:\n" ++ out])
        ++ (if err = "" then [] else ["Program errors:\n" ++ err])
        ++ basicNote
      status := "Basic analysis complete (no leak detection)" }
  | .timedOut =>
    { invocation := inv
      log := header ++ ["⚠ Program execution timed out (10 seconds)",
                        "The program may be hanging or waiting for input."]
      status := "Execution timed out" }
  | .raised msg =>
    { invocation := inv
      log := header ++ ["✗ Execution error: " ++ msg]
      status := "Execution error" }

/-- Observable effects of one `analyze_memory` action. -/
structure AnalysisEffects where
  errorDialog : Option String
  wslAttempt : Option ValgrindAttempt
  nativeAttempt : Option ValgrindAttempt
  basic : Option BasicRunEffect
  status : Option String
deriving Repr, DecidableEq

/-- Embedding of `analyze_memory`: validate the stripped entry path, try
valgrind (WSL preferred), and when the chosen valgrind helper returned
False fall back to `basic_analysis`. -/
def analyze_memory (entry : String) (fileExists : String → Bool)
    (wsl_available wsl_valgrind_available : Bool)
    (wslRun nativeRun : ValgrindRun) (basicRun : BasicRun) :
    AnalysisEffects :=
  let executable_path := pyStrip entry
  if executable_path = "" then
    ⟨some "Please select an executable file!", none, none, none, none⟩
  else if fileExists executable_path = false then
    ⟨some ("File not found: " ++ executable_path), none, none, none, none⟩
  else
    let t := try_valgrind wsl_available wsl_valgrind_available
      executable_path wslRun nativeRun
    let wslA := if t.2 then some t.1 else none
    let natA := if t.2 then none else some t.1
    if t.1.returned then
      ⟨none, wslA, natA, none, t.1.status⟩
    else
      let b := basic_analysis executable_path basicRun
      ⟨none, wslA, natA, some b, some b.status⟩

/-! ## Characterisation of the string matchers -/

theorem pyContains_iff (pat s : List Char) :
    pyContains pat s = true ↔ pat <:+: s := by
  induction s with
  | nil =>
    simp [pyContains, List.isPrefixOf_iff_prefix, List.prefix_nil, List.infix_nil]
  | cons c t ih =>
    simp [pyContains, Bool.or_eq_true, List.isPrefixOf_iff_prefix, ih,
      List.infix_cons_iff]

theorem dotStar_iff (suf t : List Char) :
    dotStar suf t = true ↔
      ∃ m r, t = m ++ suf ++ r ∧ ∀ c ∈ m, c ≠ '\n' := by
  induction t with
  | nil =>
    simp only [dotStar, List.isPrefixOf_iff_prefix, List.prefix_nil]
    constructor
    · rintro rfl
      exact ⟨[], [], by simp, by simp⟩
    · rintro ⟨m, r, h, -⟩
      rcases List.append_eq_nil.mp ((List.append_eq_nil).mp h.symm).1 with ⟨-, h2⟩
      exact h2
  | cons c t ih =>
    simp only [dotStar, Bool.or_eq_true, Bool.and_eq_true,
      List.isPrefixOf_iff_prefix, bne_iff_ne, ne_eq, ih]
    constructor
    · rintro (⟨r, hr⟩ | ⟨hc, m, r, rfl, hm⟩)
      · exact ⟨[], r, by simp [hr], by simp⟩
      · refine ⟨c :: m, r, by simp, ?_⟩
        intro x hx
        rcases List.mem_cons.mp hx with rfl | hx
        · exact hc
        · exact hm x hx
    · rintro ⟨m, r, h, hm⟩
      match m, h with
      | [], h =>
        exact Or.inl ⟨r, by simpa using h.symm⟩
      | c' :: m', h =>
        have h2 : c = c' ∧ t = m' ++ suf ++ r := by simpa using h
        obtain ⟨rfl, ht⟩ := h2
        exact Or.inr ⟨hm c (by simp), m', r, ht, fun x hx => hm x (by simp [hx])⟩

theorem searchPS_iff (pre suf s : List Char) :
    searchPS pre suf s = true ↔
      ∃ l m r, s = l ++ pre ++ m ++ suf ++ r ∧ ∀ c ∈ m, c ≠ '\n' := by
  induction s with
  | nil =>
    simp only [searchPS, Bool.and_eq_true, List.isPrefixOf_iff_prefix,
      List.prefix_nil, dotStar_iff]
    constructor
    · rintro ⟨rfl, m, r, h, hm⟩
      exact ⟨[], m, r, by simpa using h, hm⟩
    · rintro ⟨l, m, r, h, hm⟩
      have h0 : l = [] ∧ pre = [] ∧ m = [] ∧ suf = [] ∧ r = [] := by
        have := h.symm
        simp only [List.append_eq_nil, List.append_assoc] at this
        tauto
      refine ⟨h0.2.1, [], [], by simp [h0.2.2.2.1], by simp⟩
  | cons c t ih =>
    simp only [searchPS, Bool.or_eq_true, Bool.and_eq_true,
      List.isPrefixOf_iff_prefix, dotStar_iff, ih]
    constructor
    · rintro (⟨⟨rest, hrest⟩, m, r, hdrop, hm⟩ | ⟨l, m, r, rfl, hm⟩)
      · refine ⟨[], m, r, ?_, hm⟩
        have : rest = List.drop pre.length (c :: t) := by
          rw [← hrest, List.drop_left]
        rw [← hrest, this, hdrop]
        simp
      · exact ⟨c :: l, m, r, by simp, hm⟩
    · rintro ⟨l, m, r, h, hm⟩
      match l, h with
      | [], h =>
        refine Or.inl ⟨⟨m ++ suf ++ r, by simpa [List.append_assoc] using h.symm⟩,
          m, r, ?_, hm⟩
        have : c :: t = pre ++ (m ++ suf ++ r) := by simpa [List.append_assoc] using h
        rw [this, List.drop_left]
      | c' :: l', h =>
        have h2 : c = c' ∧ t = l' ++ pre ++ m ++ suf ++ r := by simpa using h
        obtain ⟨rfl, ht⟩ := h2
        exact Or.inr ⟨l', m, r, ht, hm⟩

/-! ## Claim theorems -/

theorem verdict_msgs_ne : noLeakVerdictMsg ≠ leakVerdictMsg := by decide

/-- C1: for every raw checker text, `parse_valgrind_output` reports the
no-leak verdict iff the text contains the literal phrase "All heap
blocks were freed -- no leaks are possible"; every text lacking the
phrase, whatever its surrounding content, yields the leak-detected
verdict. -/
theorem C1_verdict_iff_phrase (s : String) :
    ((parse_valgrind_output s).verdict = noLeakVerdictMsg ↔
      noLeakPhrase.toList <:+: s.toList) ∧
    ((parse_valgrind_output s).verdict = leakVerdictMsg ↔
      ¬ noLeakPhrase.toList <:+: s.toList) := by
  have h := pyContains_iff noLeakPhrase.toList s.toList
  have hv : (parse_valgrind_output s).verdict =
      if pyContains noLeakPhrase.toList s.toList then noLeakVerdictMsg
      else leakVerdictMsg := rfl
  cases hb : pyContains noLeakPhrase.toList s.toList with
  | false =>
    rw [hb] at h hv
    rw [if_neg Bool.false_ne_true] at hv
    simp only [Bool.false_eq_true, false_iff] at h
    rw [hv]
    exact ⟨⟨fun he => absurd he.symm verdict_msgs_ne, fun hi => absurd hi h⟩,
      ⟨fun _ => h, fun _ => rfl⟩⟩
  | true =>
    rw [hb] at h hv
    rw [if_pos rfl] at hv
    simp only [true_iff] at h
    rw [hv]
    exact ⟨⟨fun _ => h, fun _ => rfl⟩,
      ⟨fun he => absurd he verdict_msgs_ne, fun hn => absurd h hn⟩⟩

/-- C2: the leak-summary table is present iff the literal header "LEAK
SUMMARY" occurs anywhere in the raw text (otherwise it is omitted
entirely), and within it each of the five category fields is matched
independently by its label, a colon, any non-newline run, and the
blocks word. -/
theorem C2_leak_summary_iff_header (s : String) :
    ((parse_valgrind_output s).leakSummary.isSome = true ↔
      ("LEAK SUMMARY" : String).toList <:+: s.toList) ∧
    (∀ ls, (parse_valgrind_output s).leakSummary = some ls →
      (ls.definitelyLost = true ↔ MatchesPS "definitely lost: " " blocks" s) ∧
      (ls.indirectlyLost = true ↔ MatchesPS "indirectly lost: " " blocks" s) ∧
      (ls.possiblyLost = true ↔ MatchesPS "possibly lost: " " blocks" s) ∧
      (ls.stillReachable = true ↔ MatchesPS "still reachable: " " blocks" s) ∧
      (ls.suppressed = true ↔ MatchesPS "suppressed: " " blocks" s)) := by
  have h := pyContains_iff ("LEAK SUMMARY" : String).toList s.toList
  have hLS : (parse_valgrind_output s).leakSummary =
      if pyContains ("LEAK SUMMARY" : String).toList s.toList then
        some { definitelyLost :=
                 searchPS "definitely lost: ".toList " blocks".toList s.toList
               indirectlyLost :=
                 searchPS "indirectly lost: ".toList " blocks".toList s.toList
               possiblyLost :=
                 searchPS "possibly lost: ".toList " blocks".toList s.toList
               stillReachable :=
                 searchPS "still reachable: ".toList " blocks".toList s.toList
               suppressed :=
                 searchPS "suppressed: ".toList " blocks".toList s.toList }
      else none := rfl
  cases hb : pyContains ("LEAK SUMMARY" : String).toList s.toList with
  | false =>
    rw [hb] at h hLS
    rw [if_neg Bool.false_ne_true] at hLS
    simp only [Bool.false_eq_true, false_iff] at h
    constructor
    · rw [hLS]
      simp only [Option.isSome_none, Bool.false_eq_true, false_iff]
      exact h
    · intro ls hls
      rw [hLS] at hls
      exact absurd hls (by simp)
  | true =>
    rw [hb] at h hLS
    rw [if_pos rfl] at hLS
    simp only [true_iff] at h
    constructor
    · rw [hLS]
      simp only [Option.isSome_some, true_iff]
      exact h
    · intro ls hls
      rw [hLS] at hls
      obtain rfl := Option.some.inj hls
      refine ⟨?_, ?_, ?_, ?_, ?_⟩ <;>
        simp only [MatchesPS] <;> exact searchPS_iff _ _ _

/-- C3: a path whose first character is a drive letter followed by a
colon is rewritten to the mount prefix "/mnt/" plus the lowercased
drive letter plus the remainder, with every backslash replaced by a
forward slash; in particular "C:\a\b.c" becomes "/mnt/c/a/b.c" and
"D:\x.c" becomes "/mnt/d/x.c". -/
theorem C3_drive_letter_translation :
    (∀ (d : Char) (rest : List Char), d.isAlpha = true →
      windows_path_to_wsl ⟨d :: ':' :: rest⟩ =
        ⟨"/mnt/".toList ++
          d.toLower :: rest.map fun c => if c = '\\' then '/' else c⟩) ∧
    windows_path_to_wsl "C:\\a\\b.c" = "/mnt/c/a/b.c" ∧
    windows_path_to_wsl "D:\\x.c" = "/mnt/d/x.c" := by
  refine ⟨?_, by decide, by decide⟩
  intro d rest hd
  have hdb : (if d = '\\' then '/' else d) = d := by
    rcases eq_or_ne d '\\' with rfl | hne
    · exact absurd hd (by decide)
    · simp [hne]
  simp [windows_path_to_wsl, hdb]

/-- C4 counterexample: with WSL and its valgrind available, a WSL
valgrind failure that is neither a success nor a timeout (a raised
exception) does NOT fall through to the native-checker attempt: the
native checker is never invoked and the basic-analysis fallback runs
instead. -/
theorem C4_failure_goes_to_basic_cex :
    (analyze_memory "prog" (fun _ => true) true true (.raised "boom")
        (.completed 0 "" "") (.completed 0 "" "")).nativeAttempt = none ∧
    (analyze_memory "prog" (fun _ => true) true true (.raised "boom")
        (.completed 0 "" "") (.completed 0 "" "")).basic.isSome = true := by
  constructor <;> rfl

/-- C4 (amended): when the secondary environment and its checker are
available, analysis invokes the WSL checker with a 30-second timeout;
on a completed run it parses the stderr stream and returns without the
basic fallback; on timeout AND on any other failure it reports and
falls through to the basic-analysis fallback; the native checker is
never attempted on this branch. -/
theorem C4_wsl_checker_cascade (entry : String) (fe : String → Bool)
    (wslRun nativeRun : ValgrindRun) (basicRun : BasicRun)
    (h1 : pyStrip entry ≠ "") (h2 : fe (pyStrip entry) = true) :
    (analyze_memory entry fe true true wslRun nativeRun basicRun).nativeAttempt
        = none ∧
    (analyze_memory entry fe true true wslRun nativeRun basicRun).wslAttempt =
      some (run_wsl_valgrind (pyStrip entry) wslRun) ∧
    (run_wsl_valgrind (pyStrip entry) wslRun).invocation.timeoutSecs = 30 ∧
    (∀ rc out err, wslRun = .completed rc out err →
      (analyze_memory entry fe true true wslRun nativeRun basicRun).basic =
        none ∧
      (run_wsl_valgrind (pyStrip entry) wslRun).report =
        some (parse_valgrind_output err)) ∧
    (wslRun = .timedOut →
      (analyze_memory entry fe true true wslRun nativeRun basicRun).basic =
        some (basic_analysis (pyStrip entry) basicRun)) ∧
    (∀ msg, wslRun = .raised msg →
      (analyze_memory entry fe true true wslRun nativeRun basicRun).basic =
        some (basic_analysis (pyStrip entry) basicRun)) ∧
    (wslRun = .fileNotFound →
      (analyze_memory entry fe true true wslRun nativeRun basicRun).basic =
        some (basic_analysis (pyStrip entry) basicRun)) := by
  refine ⟨?_, ?_, ?_, ?_, ?_, ?_, ?_⟩
  · cases wslRun <;> simp [analyze_memory, try_valgrind, run_wsl_valgrind, h1, h2]
  · cases wslRun <;> simp [analyze_memory, try_valgrind, run_wsl_valgrind, h1, h2]
  · cases wslRun <;> rfl
  · rintro rc out err rfl
    exact ⟨by simp [analyze_memory, try_valgrind, run_wsl_valgrind, h1, h2], rfl⟩
  · rintro rfl
    simp [analyze_memory, try_valgrind, run_wsl_valgrind, h1, h2]
  · rintro msg rfl
    simp [analyze_memory, try_valgrind, run_wsl_valgrind, h1, h2]
  · rintro rfl
    simp [analyze_memory, try_valgrind, run_wsl_valgrind, h1, h2]

theorem C4_wsl_checker_cascade_witness :
    pyStrip "prog" ≠ "" ∧
    (analyze_memory "prog" (fun _ => true) true true (.raised "x")
        (.completed 0 "" "") (.completed 0 "" "")).nativeAttempt = none :=
  ⟨by decide,
    (C4_wsl_checker_cascade "prog" (fun _ => true) (.raised "x")
      (.completed 0 "" "") (.completed 0 "" "") (by decide) rfl).1⟩

/-- C5: an empty path, a path not ending in ".c", or a missing file makes
`compile_c_file` show a user-facing dialog, spawn no invocation, and
leave the status indicator unchanged. -/
theorem C5_compile_guard_clause (entry : String) (fileExists : String → Bool)
    (wsl_available wsl_gcc_available : Bool) (wslRun winRun : RunResult)
    (isWindows : Bool)
    (h : pyStrip entry = "" ∨ pyEndsWith (pyStrip entry) ".c" = false ∨
      fileExists (pyStrip entry) = false) :
    (compile_c_file entry fileExists wsl_available wsl_gcc_available wslRun
        winRun isWindows).invocations = [] ∧
    (compile_c_file entry fileExists wsl_available wsl_gcc_available wslRun
        winRun isWindows).status = none ∧
    ((compile_c_file entry fileExists wsl_available wsl_gcc_available wslRun
        winRun isWindows).errorDialog.isSome ||
      (compile_c_file entry fileExists wsl_available wsl_gcc_available wslRun
        winRun isWindows).infoDialog.isSome) = true := by
  unfold compile_c_file
  rcases h with h | h | h
  · simp [h]
  · by_cases h0 : pyStrip entry = ""
    · simp [h0]
    · simp [h0, h]
  · by_cases h0 : pyStrip entry = ""
    · simp [h0]
    · by_cases h1 : pyEndsWith (pyStrip entry) ".c" = false
      · simp [h0, h1]
      · simp [h0, h1, h]

theorem C5_compile_guard_witness :
    (pyStrip "" = "" ∨ pyEndsWith (pyStrip "") ".c" = false ∨
      (fun _ : String => false) (pyStrip "") = false) ∧
    (compile_c_file "" (fun _ => false) false false (.completed 0 "" "")
        (.completed 0 "" "") false).invocations = [] :=
  ⟨Or.inl (by decide),
    (C5_compile_guard_clause "" (fun _ => false) false false
      (.completed 0 "" "") (.completed 0 "" "") false (Or.inl (by decide))).1⟩

/-- C6: for every probe, a non-zero exit status, an absent executable
(FileNotFoundError) or a timeout all yield "not available" without any
exception escaping (the embeddings are total functions), and the flag
is true exactly when the process completed with exit status zero; each
probe runs with the 5-second timeout. -/
theorem C6_probe_flag_iff_zero_exit (r : ProbeOutcome) :
    ((check_windows_gcc r).2 = true ↔ r = .completed 0) ∧
    ((check_windows_valgrind r).2 = true ↔ r = .completed 0) ∧
    ((check_wsl_tools r).2 = true ↔ r = .completed 0) ∧
    ((check_wsl_gcc r).2 = true ↔ r = .completed 0) ∧
    ((check_wsl_valgrind r).2 = true ↔ r = .completed 0) ∧
    gccVersionProbe.timeoutSecs = 5 ∧ valgrindVersionProbe.timeoutSecs = 5 ∧
    wslStatusProbe.timeoutSecs = 5 ∧ wslGccVersionProbe.timeoutSecs = 5 ∧
    wslValgrindVersionProbe.timeoutSecs = 5 := by
  cases r with
  | completed rc =>
    by_cases h : rc = 0 <;>
      simp [check_windows_gcc, check_windows_valgrind, check_wsl_tools,
        check_wsl_gcc, check_wsl_valgrind, h, gccVersionProbe,
        valgrindVersionProbe, wslStatusProbe, wslGccVersionProbe,
        wslValgrindVersionProbe]
  | fileNotFound =>
    simp [check_windows_gcc, check_windows_valgrind, check_wsl_tools,
      check_wsl_gcc, check_wsl_valgrind, gccVersionProbe,
      valgrindVersionProbe, wslStatusProbe, wslGccVersionProbe,
      wslValgrindVersionProbe]
  | timedOut =>
    simp [check_windows_gcc, check_windows_valgrind, check_wsl_tools,
      check_wsl_gcc, check_wsl_valgrind, gccVersionProbe,
      valgrindVersionProbe, wslStatusProbe, wslGccVersionProbe,
      wslValgrindVersionProbe]

/-- C7: on compiler exit status zero the entry field is overwritten with
the produced executable's path in the Windows convention: the source
path with its final ".c" stripped (`file_path[:-2]`, which re-appends
to the original), with ".exe" appended only by the native compile on
the platform where that suffix is conventional. -/
theorem C7_success_updates_entry (file_path out err : String)
    (hend : pyEndsWith file_path ".c" = true) :
    pyDropLast2 file_path ++ ".c" = file_path ∧
    (∃ s, (compile_with_wsl_gcc file_path (.completed 0 out err)).2.2 =
        .ok (s, true) ∧ s.entryUpdate = some (pyDropLast2 file_path)) ∧
    (∃ s, (compile_with_windows_gcc file_path true (.completed 0 out err)).2.2 =
        .ok s ∧ s.entryUpdate = some (pyDropLast2 file_path ++ ".exe")) ∧
    (∃ s, (compile_with_windows_gcc file_path false (.completed 0 out err)).2.2 =
        .ok s ∧ s.entryUpdate = some (pyDropLast2 file_path)) := by
  refine ⟨?_, ⟨_, rfl, rfl⟩, ⟨_, rfl, rfl⟩, ⟨_, rfl, rfl⟩⟩
  have hsuf : (".c" : String).toList <:+ file_path.toList :=
    List.isSuffixOf_iff_suffix.mp hend
  obtain ⟨pre, hpre⟩ := hsuf
  have hpre2 : pre ++ ['.', 'c'] = file_path.toList := hpre
  have h1 : (pre ++ ['.', 'c']).dropLast = pre ++ ['.'] := by
    have hsplit : pre ++ ['.', 'c'] = (pre ++ ['.']) ++ ['c'] := by simp
    rw [hsplit, List.dropLast_concat]
  have h2 : (pre ++ ['.']).dropLast = pre := List.dropLast_concat
  have hdrop : pyDropLast2 file_path = ⟨pre⟩ := by
    unfold pyDropLast2
    rw [← hpre2]
    show String.mk ((pre ++ ['.', 'c']).dropLast.dropLast) = ⟨pre⟩
    rw [h1, h2]
  rw [hdrop]
  show String.mk (pre ++ ['.', 'c']) = file_path
  rw [hpre2]
  rfl

theorem C7_success_updates_entry_witness :
    pyEndsWith "a.c" ".c" = true ∧ pyDropLast2 "a.c" ++ ".c" = "a.c" :=
  ⟨by decide, (C7_success_updates_entry "a.c" "" "" (by decide)).1⟩

/-- C8: the parser is a pure function: two invocations on the same raw
text produce identical extracted fields. -/
theorem C8_parse_is_pure (s₁ s₂ : String) (h : s₁ = s₂) :
    parse_valgrind_output s₁ = parse_valgrind_output s₂ := by rw [h]

theorem C8_parse_is_pure_witness :
    ("x" : String) = "x" ∧
    parse_valgrind_output "x" = parse_valgrind_output "x" :=
  ⟨rfl, C8_parse_is_pure "x" "x" rfl⟩

/-- C9: with WSL valgrind unavailable and the native valgrind absent
(FileNotFoundError), analysis falls back to `basic_analysis`, which
runs the target directly with a 10-second timeout, reports its exit
code (tagged Success/Error), its stdout and stderr when non-empty, and
the explicit no-leak-detection reminder; a timeout or launch failure on
this path is terminal: it is reported with its own status and nothing
further is attempted. -/
theorem C9_basic_fallback (entry : String) (fe : String → Bool)
    (wsl_available wsl_valgrind_available : Bool)
    (wslRun : ValgrindRun) (basicRun : BasicRun)
    (h1 : pyStrip entry ≠ "") (h2 : fe (pyStrip entry) = true)
    (h3 : (wsl_available && wsl_valgrind_available) = false) :
    (analyze_memory entry fe wsl_available wsl_valgrind_available wslRun
        .fileNotFound basicRun).basic =
      some (basic_analysis (pyStrip entry) basicRun) ∧
    (basic_analysis (pyStrip entry) basicRun).invocation =
      ⟨[pyStrip entry], 10⟩ ∧
    (∀ rc out err, basicRun = .completed rc out err →
      ("Exit code: " ++ toString rc ++
          (if rc = 0 then " (Success)" else " (Error)")) ∈
        (basic_analysis (pyStrip entry) basicRun).log ∧
      (out ≠ "" → ("Program output:\n" ++ out) ∈
        (basic_analysis (pyStrip entry) basicRun).log) ∧
      (err ≠ "" → ("Program errors:\n" ++ err) ∈
        (basic_analysis (pyStrip entry) basicRun).log) ∧
      (∀ n ∈ basicNote, n ∈ (basic_analysis (pyStrip entry) basicRun).log) ∧
      (basic_analysis (pyStrip entry) basicRun).status =
        "Basic analysis complete (no leak detection)") ∧
    (basicRun = .timedOut →
      (basic_analysis (pyStrip entry) basicRun).status =
        "Execution timed out" ∧
      "⚠ Program execution timed out (10 seconds)" ∈
        (basic_analysis (pyStrip entry) basicRun).log) ∧
    (∀ msg, basicRun = .raised msg →
      (basic_analysis (pyStrip entry) basicRun).status = "Execution error" ∧
      ("✗ Execution error: " ++ msg) ∈
        (basic_analysis (pyStrip entry) basicRun).log) := by
  refine ⟨?_, by cases basicRun <;> rfl, ?_, ?_, ?_⟩
  · simp [analyze_memory, try_valgrind, run_native_valgrind, h1, h2, h3]
  · rintro rc out err rfl
    refine ⟨?_, ?_, ?_, ?_, rfl⟩
    · simp [basic_analysis]
    · intro hout
      simp [basic_analysis, hout]
    · intro herr
      simp [basic_analysis, herr]
    · intro n hn
      simp only [basic_analysis]
      exact List.mem_append_right _ hn
  · rintro rfl
    exact ⟨rfl, by simp [basic_analysis]⟩
  · rintro msg rfl
    exact ⟨rfl, by simp [basic_analysis]⟩

theorem C9_basic_fallback_witness :
    pyStrip "prog" ≠ "" ∧
    (analyze_memory "prog" (fun _ => true) false false (.completed 0 "" "")
        .fileNotFound .timedOut).basic =
      some (basic_analysis (pyStrip "prog") .timedOut) :=
  ⟨by decide,
    (C9_basic_fallback "prog" (fun _ => true) false false
      (.completed 0 "" "") .timedOut (by decide) rfl rfl).1⟩

/-- C10: every checker invocation (WSL or native) that completes within
its timeout is treated as a successful analysis: the stderr stream is
parsed and True is returned whatever the exit status, which is never
inspected (the helper's whole result is independent of it). -/
theorem C10_exit_status_never_inspected (executable_path out err : String)
    (rc : Int) :
    (run_wsl_valgrind executable_path (.completed rc out err)).returned
        = true ∧
    (run_wsl_valgrind executable_path (.completed rc out err)).report =
      some (parse_valgrind_output err) ∧
    run_wsl_valgrind executable_path (.completed rc out err) =
      run_wsl_valgrind executable_path (.completed 0 out err) ∧
    (run_native_valgrind executable_path (.completed rc out err)).returned
        = true ∧
    (run_native_valgrind executable_path (.completed rc out err)).report =
      some (parse_valgrind_output err) ∧
    run_native_valgrind executable_path (.completed rc out err) =
      run_native_valgrind executable_path (.completed 0 out err) :=
  ⟨rfl, rfl, rfl, rfl, rfl, rfl⟩

end MemLeak
